import Mathlib

/-!
# DeviceProber (decklink-debugger)

A shallow embedding of `src/DeviceProber.cpp`.

* The DeckLink driver is a mock device `IDeckLink`: a record of the answers the
  driver gives to the calls `DeviceProber` makes on it.
* Effects are made explicit: every function returns, next to its value, the list
  of `Event`s it performed, in order. Reference acquisitions, releases and every
  call made on the `CaptureDelegate` are events.
* A C++ `throw "message"` is `Except.error "message"`.
* A nullable pointer is an `Option`; `none` is the null pointer.
-/

namespace DecklinkDebugger

/-! ## Driver layer -/

/-- COM result code. -/
abbrev HRESULT := Int

/-- The success code of the DeckLink API. -/
def S_OK : HRESULT := 0

/-- The reference-counted objects the prober touches: the device handle and the
two facets it asks the handle for. -/
inductive RefObject where
  | deckLink
  | deckLinkInput
  | deckLinkAttributes
  deriving DecidableEq, Repr

/-- The calls that can be made on a `CaptureDelegate` (the signal monitor);
`construct` is `new CaptureDelegate(m_deckLink)`. -/
inductive MonitorCall where
  | construct
  | Start
  | GetSignalDetected
  | IsSubDevice
  | GetDetectedMode
  | GetPixelFormat
  | GetLastFrame
  | GetActiveConnection
  | SelectNextConnection
  deriving DecidableEq, Repr

/-- One observable effect. `addRef o` is a reference acquired on `o` (an
explicit `AddRef()`, or a `QueryInterface` that returned `S_OK`), `release o`
is one `Release()` on `o`, `monitor c` is one call on the capture delegate. -/
inductive Event where
  | addRef (o : RefObject)
  | release (o : RefObject)
  | monitor (c : MonitorCall)
  deriving DecidableEq, Repr

/-- The two interface ids the prober queries. -/
inductive IID where
  | IID_IDeckLinkInput
  | IID_IDeckLinkAttributes
  deriving DecidableEq, Repr

/-- The facet object an interface id stands for. -/
def IID.facet : IID → RefObject
  | .IID_IDeckLinkInput => .deckLinkInput
  | .IID_IDeckLinkAttributes => .deckLinkAttributes

/-- Mock driver for one device handle: the answers of the driver to the calls
made by `DeviceProber`. -/
structure IDeckLink where
  /-- result of `QueryInterface(IID_IDeckLinkInput, ..)` -/
  queryInput : HRESULT
  /-- result of `QueryInterface(IID_IDeckLinkAttributes, ..)` -/
  queryAttributes : HRESULT
  /-- result of `GetFlag(BMDDeckLinkSupportsInputFormatDetection, ..)` -/
  getFlag : HRESULT
  /-- value `GetFlag` writes to its out-parameter -/
  formatDetectionSupported : Bool
  /-- result of `GetDisplayName(..)` -/
  getDisplayName : HRESULT
  /-- name `GetDisplayName` writes to its out-parameter -/
  displayName : String
  deriving DecidableEq, Repr

/-- Mock `QueryInterface`: returns the result code, the out-pointer and the
events. On `S_OK` the out-pointer is the facet and one reference on it has been
acquired; on any other result the out-pointer stays null. -/
def IDeckLink.QueryInterface (d : IDeckLink) (iid : IID) :
    HRESULT × Option RefObject × List Event :=
  let result : HRESULT :=
    match iid with
    | .IID_IDeckLinkInput => d.queryInput
    | .IID_IDeckLinkAttributes => d.queryAttributes
  if result = S_OK then (result, some iid.facet, [Event.addRef iid.facet])
  else (result, none, [])

/-- Mock `IDeckLinkAttributes::GetFlag(BMDDeckLinkSupportsInputFormatDetection, ..)`:
result code and the value written. -/
def IDeckLink.GetFlag (d : IDeckLink) : HRESULT × Bool :=
  (d.getFlag, d.formatDetectionSupported)

/-- Mock `IDeckLink::GetDisplayName`: result code and the name written. -/
def IDeckLink.GetDisplayName (d : IDeckLink) : HRESULT × String :=
  (d.getDisplayName, d.displayName)

/-- Modelled from the spec: `RefReleaser` of `scope_guard.hpp`, which is not
among the sources. At scope exit it releases its pointee once iff the pointer it
guards is non-null. -/
def RefReleaser.scopeExit (p : Option RefObject) : List Event :=
  match p with
  | some o => [Event.release o]
  | none => []

/-- Modelled from the spec: `throwIfNotOk`, a helper that is not among the
sources. It raises the message iff the result is not `S_OK` (the same test
`queryAttributesInterface` and `GetDeviceName` write out by hand). -/
def throwIfNotOk (result : HRESULT) (message : String) : Except String Unit :=
  if result ≠ S_OK then Except.error message else Except.ok ()

/-! ## Capture delegate (signal monitor) -/

/-- Modelled from the spec: the `CaptureDelegate` class is not among the sources.
This is the observable state of a delegate at the moment of a call: the answer
each of its getters gives. A frame pointer is an `Option`. Its constructor,
`Start()` and `SelectNextConnection()` appear as `MonitorCall` events; they are
taken to return normally, the specification listing them without a failure. -/
structure CaptureDelegate where
  GetSignalDetected : Bool
  IsSubDevice : Bool
  GetDetectedMode : String
  GetPixelFormat : Nat
  GetLastFrame : Option Nat
  GetActiveConnection : Nat
  deriving DecidableEq, Repr

/-- A non-null `CaptureDelegate*`: the delegate built by
`new CaptureDelegate(m_deckLink)`, identified by its constructor argument. -/
structure CaptureDelegatePtr where
  deckLink : IDeckLink
  deriving DecidableEq, Repr

/-! ## DeviceProber -/

set_option linter.dupNamespace false

/-- The data members of `DeviceProber`. -/
structure DeviceProber where
  m_deckLink : IDeckLink
  m_canInput : Bool
  m_canAutodetect : Bool
  m_captureDelegate : Option CaptureDelegatePtr
  deriving DecidableEq, Repr

namespace DeviceProber

/-- `DeviceProber::queryAttributesInterface` (lines 44-57). The facet is handed
to the caller, so nothing is released here. -/
def queryAttributesInterface (m_deckLink : IDeckLink) :
    Except String (Option RefObject) × List Event :=
  let q := m_deckLink.QueryInterface IID.IID_IDeckLinkAttributes
  let result := q.1
  let deckLinkAttributes := q.2.1
  if result ≠ S_OK then
    (Except.error "Could not obtain the IDeckLinkAttributes interface", q.2.2)
  else (Except.ok deckLinkAttributes, q.2.2)

/-- `DeviceProber::queryCanInput` (lines 59-69). -/
def queryCanInput (m_deckLink : IDeckLink) : Bool × List Event :=
  let q := m_deckLink.QueryInterface IID.IID_IDeckLinkInput
  let result := q.1
  let deckLinkInput := q.2.1
  -- `deckLinkInputReleaser` runs at the return
  (decide (result = S_OK), q.2.2 ++ RefReleaser.scopeExit deckLinkInput)

/-- `DeviceProber::queryCanAutodetect` (lines 71-86). The releaser is declared
before the query and guards the variable, so it runs on every exit. -/
def queryCanAutodetect (m_deckLink : IDeckLink) : Except String Bool × List Event :=
  let q := m_deckLink.QueryInterface IID.IID_IDeckLinkAttributes
  let result := q.1
  let deckLinkAttributes := q.2.1
  match throwIfNotOk result "Could not obtain the IDeckLinkAttributes interface" with
  | Except.error e => (Except.error e, q.2.2 ++ RefReleaser.scopeExit deckLinkAttributes)
  | Except.ok _ =>
    let g := m_deckLink.GetFlag
    let result := g.1
    let formatDetectionSupported := g.2
    match throwIfNotOk result "Could not query BMDDeckLinkSupportsInputFormatDetection flag" with
    | Except.error e => (Except.error e, q.2.2 ++ RefReleaser.scopeExit deckLinkAttributes)
    | Except.ok _ =>
      (Except.ok formatDetectionSupported, q.2.2 ++ RefReleaser.scopeExit deckLinkAttributes)

/-- `DeviceProber::DeviceProber` (lines 22-42). When `queryCanAutodetect`
raises, the already constructed member `m_deckLinkReleaser` is destroyed during
unwinding; `m_deckLink` was assigned on line 30, so it is non-null then. -/
def DeviceProber (deckLink : IDeckLink) :
    Except String DecklinkDebugger.DeviceProber × List Event :=
  -- deckLink->AddRef(); m_deckLink = deckLink;
  let ev0 := [Event.addRef RefObject.deckLink]
  let m_deckLink := deckLink
  let ci := queryCanInput m_deckLink
  let m_canInput := ci.1
  let ca := queryCanAutodetect m_deckLink
  match ca.1 with
  | Except.error e =>
    (Except.error e,
      ev0 ++ ci.2 ++ ca.2 ++ RefReleaser.scopeExit (some RefObject.deckLink))
  | Except.ok m_canAutodetect =>
    if m_canAutodetect && m_canInput then
      (Except.ok
        { m_deckLink := m_deckLink, m_canInput := m_canInput,
          m_canAutodetect := m_canAutodetect,
          m_captureDelegate := some { deckLink := m_deckLink } },
        ev0 ++ ci.2 ++ ca.2 ++
          [Event.monitor MonitorCall.construct, Event.monitor MonitorCall.Start])
    else
      (Except.ok
        { m_deckLink := m_deckLink, m_canInput := m_canInput,
          m_canAutodetect := m_canAutodetect, m_captureDelegate := none },
        ev0 ++ ci.2 ++ ca.2)

/-! The query methods. `mon` is the state, at the time of the call, of the
delegate `m_captureDelegate` points to; it is read only behind the null test. -/

/-- `DeviceProber::GetSignalDetected` (lines 88-95). -/
def GetSignalDetected (self : DecklinkDebugger.DeviceProber) (mon : CaptureDelegate) :
    Bool × List Event :=
  match self.m_captureDelegate with
  | some _ => (mon.GetSignalDetected, [Event.monitor MonitorCall.GetSignalDetected])
  | none => (false, [])

/-- `DeviceProber::IsSubDevice` (lines 97-104). -/
def IsSubDevice (self : DecklinkDebugger.DeviceProber) (mon : CaptureDelegate) :
    Bool × List Event :=
  match self.m_captureDelegate with
  | some _ => (mon.IsSubDevice, [Event.monitor MonitorCall.IsSubDevice])
  | none => (false, [])

/-- `DeviceProber::GetDetectedMode` (lines 106-117). -/
def GetDetectedMode (self : DecklinkDebugger.DeviceProber) (mon : CaptureDelegate) :
    String × List Event :=
  match self.m_captureDelegate with
  | some _ =>
    if mon.GetSignalDetected then
      (mon.GetDetectedMode,
        [Event.monitor MonitorCall.GetSignalDetected, Event.monitor MonitorCall.GetDetectedMode])
    else ("", [Event.monitor MonitorCall.GetSignalDetected])
  | none => ("", [])

/-- `DeviceProber::GetPixelFormat` (lines 119-130). -/
def GetPixelFormat (self : DecklinkDebugger.DeviceProber) (mon : CaptureDelegate) :
    Nat × List Event :=
  match self.m_captureDelegate with
  | some _ =>
    if mon.GetSignalDetected then
      (mon.GetPixelFormat,
        [Event.monitor MonitorCall.GetSignalDetected, Event.monitor MonitorCall.GetPixelFormat])
    else (0, [Event.monitor MonitorCall.GetSignalDetected])
  | none => (0, [])

/-- `DeviceProber::GetLastFrame` (lines 132-140). -/
def GetLastFrame (self : DecklinkDebugger.DeviceProber) (mon : CaptureDelegate) :
    Option Nat × List Event :=
  match self.m_captureDelegate with
  | some _ => (mon.GetLastFrame, [Event.monitor MonitorCall.GetLastFrame])
  | none => (none, [])

/-- `DeviceProber::GetActiveConnection` (lines 142-150). -/
def GetActiveConnection (self : DecklinkDebugger.DeviceProber) (mon : CaptureDelegate) :
    Nat × List Event :=
  match self.m_captureDelegate with
  | some _ => (mon.GetActiveConnection, [Event.monitor MonitorCall.GetActiveConnection])
  | none => (0, [])

/-- `DeviceProber::SelectNextConnection` (lines 152-157). -/
def SelectNextConnection (self : DecklinkDebugger.DeviceProber) : Unit × List Event :=
  match self.m_captureDelegate with
  | some _ => ((), [Event.monitor MonitorCall.SelectNextConnection])
  | none => ((), [])

/-- `DeviceProber::GetDeviceName` (lines 159-171). -/
def GetDeviceName (self : DecklinkDebugger.DeviceProber) : Except String String × List Event :=
  let r := self.m_deckLink.GetDisplayName
  let result := r.1
  let deviceNameString := r.2
  if result ≠ S_OK then
    (Except.error "Failed to get the Name for the DeckLink Device", [])
  else (Except.ok deviceNameString, [])

end DeviceProber

/-! ## Sequences of public operations -/

/-- The public operations of a constructed prober. -/
inductive Op where
  | GetSignalDetected
  | IsSubDevice
  | GetDetectedMode
  | GetPixelFormat
  | GetLastFrame
  | GetActiveConnection
  | SelectNextConnection
  | GetDeviceName
  deriving DecidableEq, Repr

/-- What one public operation hands back to the caller. -/
inductive Value where
  | bool (b : Bool)
  | mode (s : String)
  | pixelFormat (n : Nat)
  | frame (f : Option Nat)
  | connection (n : Nat)
  | void
  | name (s : String)
  | raised (message : String)
  deriving DecidableEq, Repr

/-- State of the prober, value and events of one public call. -/
structure CallResult where
  state : DeviceProber
  value : Value
  events : List Event
  deriving DecidableEq, Repr

/-- One public call on the prober `self` while the delegate is in state `mon`.
None of the methods assigns a data member, so the state handed on is `self`. -/
def DeviceProber.call (self : DecklinkDebugger.DeviceProber) (op : Op) (mon : CaptureDelegate) : CallResult :=
  match op with
  | .GetSignalDetected =>
    let r := self.GetSignalDetected mon
    { state := self, value := Value.bool r.1, events := r.2 }
  | .IsSubDevice =>
    let r := self.IsSubDevice mon
    { state := self, value := Value.bool r.1, events := r.2 }
  | .GetDetectedMode =>
    let r := self.GetDetectedMode mon
    { state := self, value := Value.mode r.1, events := r.2 }
  | .GetPixelFormat =>
    let r := self.GetPixelFormat mon
    { state := self, value := Value.pixelFormat r.1, events := r.2 }
  | .GetLastFrame =>
    let r := self.GetLastFrame mon
    { state := self, value := Value.frame r.1, events := r.2 }
  | .GetActiveConnection =>
    let r := self.GetActiveConnection mon
    { state := self, value := Value.connection r.1, events := r.2 }
  | .SelectNextConnection =>
    let r := self.SelectNextConnection
    { state := self, value := Value.void, events := r.2 }
  | .GetDeviceName =>
    let r := self.GetDeviceName
    match r.1 with
    | Except.ok s => { state := self, value := Value.name s, events := r.2 }
    | Except.error e => { state := self, value := Value.raised e, events := r.2 }

/-- Outcome of a sequence of public calls. -/
structure RunResult where
  state : DeviceProber
  values : List Value
  events : List Event
  deriving DecidableEq, Repr

/-- A sequence of public calls; each call comes with the state the delegate is
in when the call is made (the delegate changes on its own between calls). A
raised `GetDeviceName` is caught by the caller, who carries on. -/
def DeviceProber.run (self : DecklinkDebugger.DeviceProber) : List (Op × CaptureDelegate) → RunResult
  | [] => { state := self, values := [], events := [] }
  | c :: rest =>
    let r := self.call c.1 c.2
    let t := DeviceProber.run r.state rest
    { state := t.state, values := r.value :: t.values, events := r.events ++ t.events }

/-! ## Reading an event log -/

/-- Number of references acquired on `o` in a log. -/
def acquired (o : RefObject) (log : List Event) : Nat :=
  log.count (Event.addRef o)

/-- Number of releases of `o` in a log. -/
def released (o : RefObject) (log : List Event) : Nat :=
  log.count (Event.release o)

/-- Number of calls `c` made on the capture delegate in a log. -/
def monitorCalls (c : MonitorCall) (log : List Event) : Nat :=
  log.count (Event.monitor c)

/-- The calls made on the capture delegate in a log, in order. -/
def monitorTrace : List Event → List MonitorCall
  | [] => []
  | Event.monitor c :: rest => c :: monitorTrace rest
  | _ :: rest => monitorTrace rest

/-- Replays a log against the count of references held on `o`, starting from
`held`; `none` when some release finds no reference left to give back. -/
def heldAfter (o : RefObject) : Nat → List Event → Option Nat
  | held, [] => some held
  | held, Event.addRef o' :: rest =>
    if o' = o then heldAfter o (held + 1) rest else heldAfter o held rest
  | held, Event.release o' :: rest =>
    if o' = o then
      (if held = 0 then none else heldAfter o (held - 1) rest)
    else heldAfter o held rest
  | held, Event.monitor _ :: rest => heldAfter o held rest

/-- Whether a result is a raised failure. -/
def raises {α : Type} (r : Except String α) : Bool :=
  match r with
  | Except.error _ => true
  | Except.ok _ => false

/-- The absent-value of each monitoring query, in the words of the
specification: `false` for the booleans, the empty label for the mode name, zero
for the pixel format and for the connection, the null reference for the frame.
The command has no value and the name query has no absent-value. -/
def absentValue : Op → Option Value
  | .GetSignalDetected => some (Value.bool false)
  | .IsSubDevice => some (Value.bool false)
  | .GetDetectedMode => some (Value.mode "")
  | .GetPixelFormat => some (Value.pixelFormat 0)
  | .GetLastFrame => some (Value.frame none)
  | .GetActiveConnection => some (Value.connection 0)
  | .SelectNextConnection => some Value.void
  | .GetDeviceName => none

/-! ## Concrete devices, delegates and probers -/

/-- `E_NOINTERFACE` (0x80004002) as a signed 32-bit result code. -/
def E_NOINTERFACE : HRESULT := -2147467262

/-- `E_FAIL` (0x80004005) as a signed 32-bit result code. -/
def E_FAIL : HRESULT := -2147467259

/-- A capture card with an input facet and format detection. -/
def captureCard : IDeckLink :=
  { queryInput := S_OK, queryAttributes := S_OK, getFlag := S_OK,
    formatDetectionSupported := true, getDisplayName := S_OK,
    displayName := "DeckLink Mini Recorder" }

/-- A playback-only card: no input facet, yet its attributes report format
detection. -/
def playbackCard : IDeckLink :=
  { captureCard with queryInput := E_NOINTERFACE, displayName := "DeckLink Mini Monitor" }

/-- A capture card without format detection. -/
def legacyCard : IDeckLink :=
  { captureCard with formatDetectionSupported := false, displayName := "DeckLink SDI" }

/-- A device whose attributes facet cannot be obtained. -/
def noAttributesCard : IDeckLink :=
  { captureCard with queryAttributes := E_NOINTERFACE }

/-- A device whose attributes facet is there but whose flag cannot be read. -/
def noFlagCard : IDeckLink :=
  { captureCard with getFlag := E_FAIL }

/-- A device that has neither an input facet nor an attributes facet. -/
def bareCard : IDeckLink :=
  { captureCard with queryInput := E_NOINTERFACE, queryAttributes := E_NOINTERFACE }

/-- A capture card that cannot tell its name. -/
def namelessCard : IDeckLink :=
  { captureCard with getDisplayName := E_FAIL, displayName := "" }

/-- The prober the constructor builds over `captureCard`. -/
def monitoringProber : DeviceProber :=
  { m_deckLink := captureCard, m_canInput := true, m_canAutodetect := true,
    m_captureDelegate := some { deckLink := captureCard } }

/-- The prober the constructor builds over `playbackCard`. -/
def plainProber : DeviceProber :=
  { m_deckLink := playbackCard, m_canInput := false, m_canAutodetect := true,
    m_captureDelegate := none }

/-- The prober over a nameless capture card. -/
def namelessProber : DeviceProber :=
  { m_deckLink := namelessCard, m_canInput := true, m_canAutodetect := true,
    m_captureDelegate := some { deckLink := namelessCard } }

/-- A delegate that sees a 1080p59.94 signal. -/
def lockedDelegate : CaptureDelegate :=
  { GetSignalDetected := true, IsSubDevice := false, GetDetectedMode := "1080p59.94",
    GetPixelFormat := 846624121, GetLastFrame := some 4096, GetActiveConnection := 1 }

/-- A delegate that lost the signal and still remembers the last mode, format
and frame. -/
def unlockedDelegate : CaptureDelegate :=
  { lockedDelegate with GetSignalDetected := false, IsSubDevice := true }

/-- A short session: every public operation once, the signal coming and going. -/
def session : List (Op × CaptureDelegate) :=
  [(Op.GetSignalDetected, unlockedDelegate), (Op.IsSubDevice, lockedDelegate),
    (Op.GetDetectedMode, lockedDelegate), (Op.GetPixelFormat, unlockedDelegate),
    (Op.GetLastFrame, unlockedDelegate), (Op.GetActiveConnection, lockedDelegate),
    (Op.SelectNextConnection, lockedDelegate), (Op.GetDeviceName, unlockedDelegate),
    (Op.GetDetectedMode, unlockedDelegate)]

/-- The monitoring part of `session`. -/
def monitoringSession : List (Op × CaptureDelegate) :=
  [(Op.GetSignalDetected, unlockedDelegate), (Op.IsSubDevice, lockedDelegate),
    (Op.GetDetectedMode, lockedDelegate), (Op.GetPixelFormat, unlockedDelegate),
    (Op.GetLastFrame, unlockedDelegate), (Op.GetActiveConnection, lockedDelegate),
    (Op.SelectNextConnection, lockedDelegate), (Op.GetSignalDetected, lockedDelegate)]

/-- The events of constructing a prober over `captureCard`. -/
def captureCardLog : List Event :=
  [Event.addRef RefObject.deckLink,
    Event.addRef RefObject.deckLinkInput, Event.release RefObject.deckLinkInput,
    Event.addRef RefObject.deckLinkAttributes, Event.release RefObject.deckLinkAttributes,
    Event.monitor MonitorCall.construct, Event.monitor MonitorCall.Start]

/-- The events of constructing a prober over `playbackCard`. -/
def playbackCardLog : List Event :=
  [Event.addRef RefObject.deckLink,
    Event.addRef RefObject.deckLinkAttributes, Event.release RefObject.deckLinkAttributes]

/-! ## Evaluation lemmas -/

theorem queryCanInput_of_ok (d : IDeckLink) (h : d.queryInput = S_OK) :
    DeviceProber.queryCanInput d =
      (true, [Event.addRef RefObject.deckLinkInput, Event.release RefObject.deckLinkInput]) := by
  simp [DeviceProber.queryCanInput, IDeckLink.QueryInterface, RefReleaser.scopeExit,
    IID.facet, h]

theorem queryCanInput_of_not_ok (d : IDeckLink) (h : d.queryInput ≠ S_OK) :
    DeviceProber.queryCanInput d = (false, []) := by
  simp [DeviceProber.queryCanInput, IDeckLink.QueryInterface, RefReleaser.scopeExit, h]

theorem queryCanAutodetect_of_no_attributes (d : IDeckLink) (h : d.queryAttributes ≠ S_OK) :
    DeviceProber.queryCanAutodetect d =
      (Except.error "Could not obtain the IDeckLinkAttributes interface", []) := by
  simp [DeviceProber.queryCanAutodetect, IDeckLink.QueryInterface, RefReleaser.scopeExit,
    throwIfNotOk, h]

theorem queryCanAutodetect_of_no_flag (d : IDeckLink) (h : d.queryAttributes = S_OK) (hf : d.getFlag ≠ S_OK) :
    DeviceProber.queryCanAutodetect d =
      (Except.error "Could not query BMDDeckLinkSupportsInputFormatDetection flag",
        [Event.addRef RefObject.deckLinkAttributes,
          Event.release RefObject.deckLinkAttributes]) := by
  simp [DeviceProber.queryCanAutodetect, IDeckLink.QueryInterface, RefReleaser.scopeExit,
    throwIfNotOk, IDeckLink.GetFlag, IID.facet, h, hf]

theorem queryCanAutodetect_of_ok (d : IDeckLink) (h : d.queryAttributes = S_OK) (hf : d.getFlag = S_OK) :
    DeviceProber.queryCanAutodetect d =
      (Except.ok d.formatDetectionSupported,
        [Event.addRef RefObject.deckLinkAttributes,
          Event.release RefObject.deckLinkAttributes]) := by
  simp [DeviceProber.queryCanAutodetect, IDeckLink.QueryInterface, RefReleaser.scopeExit,
    throwIfNotOk, IDeckLink.GetFlag, IID.facet, h, hf]

/-- The constructor when the attributes facet cannot be obtained. -/
theorem ctor_of_no_attributes (d : IDeckLink) (h : d.queryAttributes ≠ S_OK) :
    DeviceProber.DeviceProber d =
      (Except.error "Could not obtain the IDeckLinkAttributes interface",
        [Event.addRef RefObject.deckLink] ++ (DeviceProber.queryCanInput d).2 ++
          [Event.release RefObject.deckLink]) := by
  simp [DeviceProber.DeviceProber, queryCanAutodetect_of_no_attributes d h,
    RefReleaser.scopeExit]

/-- The constructor when the flag cannot be read. -/
theorem ctor_of_no_flag (d : IDeckLink) (h : d.queryAttributes = S_OK) (hf : d.getFlag ≠ S_OK) :
    DeviceProber.DeviceProber d =
      (Except.error "Could not query BMDDeckLinkSupportsInputFormatDetection flag",
        [Event.addRef RefObject.deckLink] ++ (DeviceProber.queryCanInput d).2 ++
          [Event.addRef RefObject.deckLinkAttributes,
            Event.release RefObject.deckLinkAttributes,
            Event.release RefObject.deckLink]) := by
  simp [DeviceProber.DeviceProber, queryCanAutodetect_of_no_flag d h hf,
    RefReleaser.scopeExit]

/-- The constructor when both mandatory queries succeed. -/
theorem ctor_of_ok (d : IDeckLink) (h : d.queryAttributes = S_OK) (hf : d.getFlag = S_OK) :
    DeviceProber.DeviceProber d =
      if (d.formatDetectionSupported && (DeviceProber.queryCanInput d).1) = true then
        (Except.ok
          { m_deckLink := d, m_canInput := (DeviceProber.queryCanInput d).1,
            m_canAutodetect := d.formatDetectionSupported,
            m_captureDelegate := some { deckLink := d } },
          [Event.addRef RefObject.deckLink] ++ (DeviceProber.queryCanInput d).2 ++
            [Event.addRef RefObject.deckLinkAttributes,
              Event.release RefObject.deckLinkAttributes,
              Event.monitor MonitorCall.construct, Event.monitor MonitorCall.Start])
      else
        (Except.ok
          { m_deckLink := d, m_canInput := (DeviceProber.queryCanInput d).1,
            m_canAutodetect := d.formatDetectionSupported,
            m_captureDelegate := none },
          [Event.addRef RefObject.deckLink] ++ (DeviceProber.queryCanInput d).2 ++
            [Event.addRef RefObject.deckLinkAttributes,
              Event.release RefObject.deckLinkAttributes]) := by
  simp only [DeviceProber.DeviceProber, queryCanAutodetect_of_ok d h hf]
  split <;> simp

/-- Trace of a log that ends in the events of a list. -/
theorem monitorTrace_append (xs ys : List Event) :
    monitorTrace (xs ++ ys) = monitorTrace xs ++ monitorTrace ys := by
  induction xs with
  | nil => rfl
  | cons e rest ih => cases e <;> simp [monitorTrace, ih]

/-- The probe of the input facet makes no call on the capture delegate. -/
theorem monitorTrace_queryCanInput (d : IDeckLink) :
    monitorTrace (DeviceProber.queryCanInput d).2 = [] := by
  by_cases h : d.queryInput = S_OK
  · rw [queryCanInput_of_ok d h]; rfl
  · rw [queryCanInput_of_not_ok d h]; rfl

/-- The value of the probe of the input facet. -/
theorem queryCanInput_value (d : IDeckLink) :
    (DeviceProber.queryCanInput d).1 = decide (d.queryInput = S_OK) := by
  by_cases h : d.queryInput = S_OK
  · rw [queryCanInput_of_ok d h]; simp [h]
  · rw [queryCanInput_of_not_ok d h]; simp [h]

/-! ## The construction contract -/

/-- C1. After every successful construction the monitor pointer is non-null iff
`canInput ∧ canAutodetect`, where `canInput` is "the input-facet query returned
`S_OK`" and `canAutodetect` is the value of the format-detection flag, and the
delegate is constructed exactly in that case. When the input-facet query fails,
`queryCanInput` yields false and no call at all is made on a capture delegate,
whether construction succeeds or raises; a prober that results has
`canInput = false` and a null monitor pointer. -/
theorem C1_monitor_iff_both_capabilities (d : IDeckLink) :
    (DeviceProber.queryCanInput d).1 = decide (d.queryInput = S_OK) ∧
    (∀ (p : DeviceProber) (log : List Event),
      DeviceProber.DeviceProber d = (Except.ok p, log) →
        (p.m_captureDelegate ≠ none ↔ (p.m_canInput = true ∧ p.m_canAutodetect = true)) ∧
        (p.m_canInput = true ↔ d.queryInput = S_OK) ∧
        p.m_canAutodetect = d.formatDetectionSupported ∧
        monitorCalls MonitorCall.construct log =
          (if p.m_canInput = true ∧ p.m_canAutodetect = true then 1 else 0)) ∧
    (d.queryInput ≠ S_OK →
      (DeviceProber.queryCanInput d).1 = false ∧
      monitorTrace (DeviceProber.DeviceProber d).2 = [] ∧
      ∀ (p : DeviceProber) (log : List Event),
        DeviceProber.DeviceProber d = (Except.ok p, log) →
          p.m_canInput = false ∧ p.m_captureDelegate = none) := by
  refine ⟨queryCanInput_value d, ?_, ?_⟩
  · intro p log hp
    by_cases ha : d.queryAttributes = S_OK
    · by_cases hf : d.getFlag = S_OK
      · rw [ctor_of_ok d ha hf] at hp
        by_cases hi : d.queryInput = S_OK
        · rw [queryCanInput_of_ok d hi] at hp
          cases hv : d.formatDetectionSupported <;> simp [hv] at hp <;>
            obtain ⟨hp, hlog⟩ := hp <;> subst hp <;> subst hlog <;>
            simp [hi, hv, monitorCalls]
        · rw [queryCanInput_of_not_ok d hi] at hp
          simp at hp
          obtain ⟨hp, hlog⟩ := hp
          subst hp; subst hlog
          simp [hi, monitorCalls]
      · rw [ctor_of_no_flag d ha hf] at hp
        simp at hp
    · rw [ctor_of_no_attributes d ha] at hp
      simp at hp
  · intro hi
    refine ⟨by rw [queryCanInput_of_not_ok d hi], ?_, ?_⟩
    · by_cases ha : d.queryAttributes = S_OK
      · by_cases hf : d.getFlag = S_OK
        · rw [ctor_of_ok d ha hf, queryCanInput_of_not_ok d hi]
          simp [monitorTrace]
        · rw [ctor_of_no_flag d ha hf, queryCanInput_of_not_ok d hi]
          simp [monitorTrace]
      · rw [ctor_of_no_attributes d ha, queryCanInput_of_not_ok d hi]
        simp [monitorTrace]
    · intro p log hp
      by_cases ha : d.queryAttributes = S_OK
      · by_cases hf : d.getFlag = S_OK
        · rw [ctor_of_ok d ha hf, queryCanInput_of_not_ok d hi] at hp
          simp at hp
          obtain ⟨hp, _⟩ := hp
          subst hp
          simp
        · rw [ctor_of_no_flag d ha hf] at hp
          simp at hp
      · rw [ctor_of_no_attributes d ha] at hp
        simp at hp

/-- C1 at `captureCard` (both capabilities: prober with a delegate) and at
`playbackCard` (no input facet: no delegate). -/
theorem C1_monitor_iff_both_capabilities_witness :
    DeviceProber.DeviceProber captureCard = (Except.ok monitoringProber, captureCardLog) ∧
    (monitoringProber.m_captureDelegate ≠ none ↔
      (monitoringProber.m_canInput = true ∧ monitoringProber.m_canAutodetect = true)) ∧
    monitorCalls MonitorCall.construct captureCardLog = 1 ∧
    playbackCard.queryInput ≠ S_OK ∧
    DeviceProber.DeviceProber playbackCard = (Except.ok plainProber, playbackCardLog) ∧
    monitorTrace (DeviceProber.DeviceProber playbackCard).2 = [] ∧
    plainProber.m_canInput = false ∧ plainProber.m_captureDelegate = none :=
  have hc : DeviceProber.DeviceProber captureCard = (Except.ok monitoringProber, captureCardLog) :=
    rfl
  have hp : DeviceProber.DeviceProber playbackCard = (Except.ok plainProber, playbackCardLog) :=
    rfl
  have hi : playbackCard.queryInput ≠ S_OK := by decide
  have c := (C1_monitor_iff_both_capabilities captureCard).2.1 monitoringProber captureCardLog hc
  have q := (C1_monitor_iff_both_capabilities playbackCard).2.2 hi
  ⟨hc, c.1, c.2.2.2, hi, hp, q.2.1, q.2.2 plainProber playbackCardLog hp⟩

/-- C2. Construction raises iff the attributes-facet query does not return `S_OK`
or the read of the format-detection flag does not return `S_OK`. A failed
input-facet query does not make it raise: with both mandatory queries answered
`S_OK` the constructor returns a prober with `canInput = false`. The two fatal
conditions raise two different messages, and a construction that raises makes no
call on a capture delegate (none is constructed, none is started). -/
theorem C2_construction_fails_iff_mandatory_query_fails (d : IDeckLink) :
    (raises (DeviceProber.DeviceProber d).1 = true ↔
      (d.queryAttributes ≠ S_OK ∨ d.getFlag ≠ S_OK)) ∧
    (d.queryAttributes ≠ S_OK →
      (DeviceProber.DeviceProber d).1 =
        Except.error "Could not obtain the IDeckLinkAttributes interface") ∧
    (d.queryAttributes = S_OK → d.getFlag ≠ S_OK →
      (DeviceProber.DeviceProber d).1 =
        Except.error "Could not query BMDDeckLinkSupportsInputFormatDetection flag") ∧
    (Except.error "Could not obtain the IDeckLinkAttributes interface" :
        Except String DeviceProber) ≠
      Except.error "Could not query BMDDeckLinkSupportsInputFormatDetection flag" ∧
    (d.queryInput ≠ S_OK → d.queryAttributes = S_OK → d.getFlag = S_OK →
      (DeviceProber.DeviceProber d).1 =
        Except.ok
          { m_deckLink := d, m_canInput := false,
            m_canAutodetect := d.formatDetectionSupported, m_captureDelegate := none }) ∧
    (raises (DeviceProber.DeviceProber d).1 = true →
      monitorTrace (DeviceProber.DeviceProber d).2 = [] ∧
      monitorCalls MonitorCall.construct (DeviceProber.DeviceProber d).2 = 0 ∧
      monitorCalls MonitorCall.Start (DeviceProber.DeviceProber d).2 = 0) := by
  have hq := monitorTrace_queryCanInput d
  refine ⟨?_, ?_, ?_, ?_, ?_, ?_⟩
  · by_cases ha : d.queryAttributes = S_OK
    · by_cases hf : d.getFlag = S_OK
      · rw [ctor_of_ok d ha hf]
        split <;> simp [raises, ha, hf]
      · rw [ctor_of_no_flag d ha hf]
        simp [raises, hf]
    · rw [ctor_of_no_attributes d ha]
      simp [raises, ha]
  · intro ha
    rw [ctor_of_no_attributes d ha]
  · intro ha hf
    rw [ctor_of_no_flag d ha hf]
  · intro hm
    injection hm with hm
    exact absurd hm (by decide)
  · intro hi ha hf
    rw [ctor_of_ok d ha hf, queryCanInput_of_not_ok d hi]
    simp
  · intro hr
    by_cases ha : d.queryAttributes = S_OK
    · by_cases hf : d.getFlag = S_OK
      · rw [ctor_of_ok d ha hf] at hr
        split at hr <;> simp [raises] at hr
      · rw [ctor_of_no_flag d ha hf]
        by_cases hi : d.queryInput = S_OK
        · rw [queryCanInput_of_ok d hi]
          simp [monitorTrace, monitorCalls]
        · rw [queryCanInput_of_not_ok d hi]
          simp [monitorTrace, monitorCalls]
    · rw [ctor_of_no_attributes d ha]
      by_cases hi : d.queryInput = S_OK
      · rw [queryCanInput_of_ok d hi]
        simp [monitorTrace, monitorCalls]
      · rw [queryCanInput_of_not_ok d hi]
        simp [monitorTrace, monitorCalls]

/-- C2 at `noAttributesCard`, `noFlagCard` (the two fatal conditions) and
`playbackCard` (a failed input-facet query alone). -/
theorem C2_construction_fails_iff_mandatory_query_fails_witness :
    noAttributesCard.queryAttributes ≠ S_OK ∧
    (DeviceProber.DeviceProber noAttributesCard).1 =
      Except.error "Could not obtain the IDeckLinkAttributes interface" ∧
    raises (DeviceProber.DeviceProber noAttributesCard).1 = true ∧
    monitorTrace (DeviceProber.DeviceProber noAttributesCard).2 = [] ∧
    (noFlagCard.queryAttributes = S_OK ∧ noFlagCard.getFlag ≠ S_OK) ∧
    (DeviceProber.DeviceProber noFlagCard).1 =
      Except.error "Could not query BMDDeckLinkSupportsInputFormatDetection flag" ∧
    (playbackCard.queryInput ≠ S_OK ∧ playbackCard.queryAttributes = S_OK ∧
      playbackCard.getFlag = S_OK) ∧
    (DeviceProber.DeviceProber playbackCard).1 = Except.ok plainProber :=
  have a1 : noAttributesCard.queryAttributes ≠ S_OK := by decide
  have f1 : noFlagCard.queryAttributes = S_OK := by decide
  have f2 : noFlagCard.getFlag ≠ S_OK := by decide
  have p1 : playbackCard.queryInput ≠ S_OK := by decide
  have p2 : playbackCard.queryAttributes = S_OK := by decide
  have p3 : playbackCard.getFlag = S_OK := by decide
  have ca := C2_construction_fails_iff_mandatory_query_fails noAttributesCard
  have cf := C2_construction_fails_iff_mandatory_query_fails noFlagCard
  have cp := C2_construction_fails_iff_mandatory_query_fails playbackCard
  have hr : raises (DeviceProber.DeviceProber noAttributesCard).1 = true :=
    ca.1.mpr (Or.inl a1)
  ⟨a1, ca.2.1 a1, hr, (ca.2.2.2.2.2 hr).1, ⟨f1, f2⟩, cf.2.2.1 f1 f2, ⟨p1, p2, p3⟩,
    cp.2.2.2.2.1 p1 p2 p3⟩

/-! ## The query contract -/

/-- The name query performs no reference counting and no call on a delegate. -/
theorem GetDeviceName_events (p : DeviceProber) : p.GetDeviceName.2 = [] := by
  simp only [DeviceProber.GetDeviceName]
  split <;> rfl

/-- A prober without a delegate is left as it is by every public call, and the
call makes no call on a delegate. -/
theorem call_of_no_monitor (p : DeviceProber) (h : p.m_captureDelegate = none)
    (op : Op) (mon : CaptureDelegate) :
    (p.call op mon).state = p ∧ (p.call op mon).events = [] := by
  cases op <;>
    simp [DeviceProber.call, DeviceProber.GetSignalDetected, DeviceProber.IsSubDevice,
      DeviceProber.GetDetectedMode, DeviceProber.GetPixelFormat, DeviceProber.GetLastFrame,
      DeviceProber.GetActiveConnection, DeviceProber.SelectNextConnection, h]
  split <;> simp [GetDeviceName_events]

/-- Every public call hands the prober on unchanged. -/
theorem call_state (p : DeviceProber) (op : Op) (mon : CaptureDelegate) :
    (p.call op mon).state = p := by
  cases op <;> simp [DeviceProber.call]
  split <;> rfl

/-- Every sequence of public calls hands the prober on unchanged. -/
theorem run_state (p : DeviceProber) (calls : List (Op × CaptureDelegate)) :
    (p.run calls).state = p := by
  induction calls with
  | nil => rfl
  | cons c rest ih => simp [DeviceProber.run, call_state, ih]

/-- The value of a monitoring call on a prober without a delegate. -/
theorem call_value_of_no_monitor (p : DeviceProber) (h : p.m_captureDelegate = none)
    (op : Op) (mon : CaptureDelegate) (hop : op ≠ Op.GetDeviceName) :
    some (p.call op mon).value = absentValue op := by
  cases op <;>
    simp [DeviceProber.call, DeviceProber.GetSignalDetected, DeviceProber.IsSubDevice,
      DeviceProber.GetDetectedMode, DeviceProber.GetPixelFormat, DeviceProber.GetLastFrame,
      DeviceProber.GetActiveConnection, DeviceProber.SelectNextConnection, absentValue, h]
  exact hop rfl

/-- A run on a prober without a delegate makes no call on a delegate. -/
theorem run_events_of_no_monitor (p : DeviceProber) (h : p.m_captureDelegate = none)
    (calls : List (Op × CaptureDelegate)) : (p.run calls).events = [] := by
  induction calls with
  | nil => rfl
  | cons c rest ih =>
    simp [DeviceProber.run, call_state, (call_of_no_monitor p h c.1 c.2).2, ih]

/-- The values of a run of monitoring calls on a prober without a delegate. -/
theorem run_values_of_no_monitor (p : DeviceProber) (h : p.m_captureDelegate = none)
    (calls : List (Op × CaptureDelegate)) (hc : ∀ c ∈ calls, c.1 ≠ Op.GetDeviceName) :
    (p.run calls).values.map some = calls.map (fun c => absentValue c.1) := by
  induction calls with
  | nil => rfl
  | cons c rest ih =>
    have h1 := call_value_of_no_monitor p h c.1 c.2 (hc c (List.mem_cons_self _ _))
    have h2 := ih (fun x hx => hc x (List.mem_cons_of_mem _ hx))
    simp [DeviceProber.run, call_state, h1, h2]

/-- C3. A prober that holds no delegate answers every monitoring query with the
absent-value and makes no call on a delegate: `GetSignalDetected() = false`,
`IsSubDevice() = false`, `GetDetectedMode() = ""`, `GetPixelFormat() = 0`,
`GetLastFrame() = null`, `GetActiveConnection() = 0`, and
`SelectNextConnection()` does nothing. Over every sequence of public calls the
prober comes out unchanged and no call on a delegate is made, and over every
sequence of monitoring calls each value is the absent-value of its query (so
none of them is a raised failure). -/
theorem C3_no_monitor_absent_values (p : DeviceProber) (h : p.m_captureDelegate = none)
    (mon : CaptureDelegate) (calls : List (Op × CaptureDelegate)) :
    p.GetSignalDetected mon = (false, []) ∧
    p.IsSubDevice mon = (false, []) ∧
    p.GetDetectedMode mon = ("", []) ∧
    p.GetPixelFormat mon = (0, []) ∧
    p.GetLastFrame mon = (none, []) ∧
    p.GetActiveConnection mon = (0, []) ∧
    p.SelectNextConnection = ((), []) ∧
    (p.call Op.SelectNextConnection mon).state = p ∧
    (p.run calls).state = p ∧
    (p.run calls).events = [] ∧
    ((∀ c ∈ calls, c.1 ≠ Op.GetDeviceName) →
      (p.run calls).values.map some = calls.map (fun c => absentValue c.1)) := by
  refine ⟨?_, ?_, ?_, ?_, ?_, ?_, ?_, call_state p _ mon, run_state p calls,
    run_events_of_no_monitor p h calls, run_values_of_no_monitor p h calls⟩
  · simp [DeviceProber.GetSignalDetected, h]
  · simp [DeviceProber.IsSubDevice, h]
  · simp [DeviceProber.GetDetectedMode, h]
  · simp [DeviceProber.GetPixelFormat, h]
  · simp [DeviceProber.GetLastFrame, h]
  · simp [DeviceProber.GetActiveConnection, h]
  · simp [DeviceProber.SelectNextConnection, h]

/-- C3 at `plainProber`, with a delegate state that would answer otherwise, over
`monitoringSession`. -/
theorem C3_no_monitor_absent_values_witness :
    plainProber.m_captureDelegate = none ∧
    plainProber.GetSignalDetected lockedDelegate = (false, []) ∧
    plainProber.GetDetectedMode lockedDelegate = ("", []) ∧
    plainProber.GetLastFrame lockedDelegate = (none, []) ∧
    (plainProber.run monitoringSession).state = plainProber ∧
    (plainProber.run monitoringSession).events = [] ∧
    (plainProber.run monitoringSession).values.map some =
      monitoringSession.map (fun c => absentValue c.1) :=
  have c := C3_no_monitor_absent_values plainProber rfl lockedDelegate monitoringSession
  ⟨rfl, c.1, c.2.2.1, c.2.2.2.2.1, c.2.2.2.2.2.2.2.2.1, c.2.2.2.2.2.2.2.2.2.1,
    c.2.2.2.2.2.2.2.2.2.2 (by decide)⟩

/-- C4, as stated, fails. `monitoringProber` holds a delegate, `unlockedDelegate`
reports no signal, and `GetLastFrame()` still hands out the delegate's frame
4096 by one `GetLastFrame` call on the delegate, without asking it for
`GetSignalDetected`. So it is not true that every prober holding a delegate
without a signal answers the null frame. -/
theorem C4_last_frame_gated_counterexample :
    monitoringProber.m_captureDelegate ≠ none ∧
    unlockedDelegate.GetSignalDetected = false ∧
    monitoringProber.GetLastFrame unlockedDelegate =
      (some 4096, [Event.monitor MonitorCall.GetLastFrame]) ∧
    (monitoringProber.GetLastFrame unlockedDelegate).1 ≠ none ∧
    ¬ (∀ (p : DeviceProber) (mon : CaptureDelegate),
        p.m_captureDelegate ≠ none → mon.GetSignalDetected = false →
          (p.GetLastFrame mon).1 = none) := by
  refine ⟨by decide, rfl, rfl, by decide, ?_⟩
  intro hall
  have h := hall monitoringProber unlockedDelegate (by decide) rfl
  exact absurd h (by decide)

/-- C4, amended. A prober that holds a delegate forwards the last-frame query
whatever the delegate says about the signal: `GetLastFrame()` returns exactly
the delegate's `GetLastFrame()` by one call on it and never asks it for
`GetSignalDetected`; the answer is null only when the delegate's own last frame
is null. The only gate of the last-frame query is the delegate's existence. -/
theorem C4_last_frame_forwards_whenever_monitor (p : DeviceProber)
    (h : p.m_captureDelegate ≠ none) (mon : CaptureDelegate) :
    p.GetLastFrame mon = (mon.GetLastFrame, [Event.monitor MonitorCall.GetLastFrame]) ∧
    monitorCalls MonitorCall.GetSignalDetected (p.GetLastFrame mon).2 = 0 ∧
    ((p.GetLastFrame mon).1 = none ↔ mon.GetLastFrame = none) := by
  cases hm : p.m_captureDelegate with
  | none => exact absurd hm h
  | some ptr => simp [DeviceProber.GetLastFrame, hm, monitorCalls]

/-- Amended C4 at `monitoringProber` and a delegate without a signal. -/
theorem C4_last_frame_forwards_whenever_monitor_witness :
    unlockedDelegate.GetSignalDetected = false ∧
    monitoringProber.GetLastFrame unlockedDelegate =
      (unlockedDelegate.GetLastFrame, [Event.monitor MonitorCall.GetLastFrame]) :=
  ⟨rfl, (C4_last_frame_forwards_whenever_monitor monitoringProber (by decide)
    unlockedDelegate).1⟩

/-- C5. A prober that holds a delegate reporting no signal answers
`GetDetectedMode() = ""` and `GetPixelFormat() = 0` whatever the delegate's own
mode and pixel format are; each of the two queries makes the single call
`GetSignalDetected` on the delegate and calls neither `GetDetectedMode` nor
`GetPixelFormat` on it. -/
theorem C5_no_signal_mode_and_format_absent (p : DeviceProber)
    (h : p.m_captureDelegate ≠ none) (mon : CaptureDelegate)
    (hs : mon.GetSignalDetected = false) :
    p.GetDetectedMode mon = ("", [Event.monitor MonitorCall.GetSignalDetected]) ∧
    p.GetPixelFormat mon = (0, [Event.monitor MonitorCall.GetSignalDetected]) ∧
    monitorCalls MonitorCall.GetDetectedMode (p.GetDetectedMode mon).2 = 0 ∧
    monitorCalls MonitorCall.GetPixelFormat (p.GetDetectedMode mon).2 = 0 ∧
    monitorCalls MonitorCall.GetDetectedMode (p.GetPixelFormat mon).2 = 0 ∧
    monitorCalls MonitorCall.GetPixelFormat (p.GetPixelFormat mon).2 = 0 := by
  cases hm : p.m_captureDelegate with
  | none => exact absurd hm h
  | some ptr =>
    simp [DeviceProber.GetDetectedMode, DeviceProber.GetPixelFormat, hm, hs, monitorCalls]

/-- C5 at `monitoringProber` and a delegate that remembers "1080p59.94". -/
theorem C5_no_signal_mode_and_format_absent_witness :
    unlockedDelegate.GetDetectedMode = "1080p59.94" ∧
    unlockedDelegate.GetPixelFormat = 846624121 ∧
    monitoringProber.GetDetectedMode unlockedDelegate =
      ("", [Event.monitor MonitorCall.GetSignalDetected]) ∧
    monitoringProber.GetPixelFormat unlockedDelegate =
      (0, [Event.monitor MonitorCall.GetSignalDetected]) :=
  have c := C5_no_signal_mode_and_format_absent monitoringProber (by decide)
    unlockedDelegate rfl
  ⟨rfl, rfl, c.1, c.2.1⟩

/-- C6. A prober that holds a delegate reporting a signal returns from
`GetDetectedMode()`, `GetPixelFormat()` and `GetLastFrame()` exactly the
delegate's `GetDetectedMode()`, `GetPixelFormat()` and `GetLastFrame()`, for
every state of the delegate. -/
theorem C6_signal_forwards_live_values (p : DeviceProber)
    (h : p.m_captureDelegate ≠ none) (mon : CaptureDelegate)
    (hs : mon.GetSignalDetected = true) :
    (p.GetDetectedMode mon).1 = mon.GetDetectedMode ∧
    (p.GetPixelFormat mon).1 = mon.GetPixelFormat ∧
    (p.GetLastFrame mon).1 = mon.GetLastFrame ∧
    monitorCalls MonitorCall.GetDetectedMode (p.GetDetectedMode mon).2 = 1 ∧
    monitorCalls MonitorCall.GetPixelFormat (p.GetPixelFormat mon).2 = 1 ∧
    monitorCalls MonitorCall.GetLastFrame (p.GetLastFrame mon).2 = 1 := by
  cases hm : p.m_captureDelegate with
  | none => exact absurd hm h
  | some ptr =>
    simp [DeviceProber.GetDetectedMode, DeviceProber.GetPixelFormat,
      DeviceProber.GetLastFrame, hm, hs, monitorCalls]

/-- C6 at `monitoringProber` and a delegate locked to "1080p59.94". -/
theorem C6_signal_forwards_live_values_witness :
    lockedDelegate.GetSignalDetected = true ∧
    (monitoringProber.GetDetectedMode lockedDelegate).1 = "1080p59.94" ∧
    (monitoringProber.GetPixelFormat lockedDelegate).1 = 846624121 ∧
    (monitoringProber.GetLastFrame lockedDelegate).1 = some 4096 :=
  have c := C6_signal_forwards_live_values monitoringProber (by decide) lockedDelegate rfl
  ⟨rfl, c.1, c.2.1, c.2.2.1⟩

/-- C7. A prober that holds a delegate returns from `GetSignalDetected()`,
`IsSubDevice()` and `GetActiveConnection()` exactly the delegate's
`GetSignalDetected()`, `IsSubDevice()` and `GetActiveConnection()`, each by one
call on the delegate, whether or not the delegate reports a signal; and
`SelectNextConnection()` performs exactly one `SelectNextConnection` call on the
delegate and nothing else. -/
theorem C7_unconditional_forwarding (p : DeviceProber)
    (h : p.m_captureDelegate ≠ none) (mon : CaptureDelegate) :
    p.GetSignalDetected mon =
      (mon.GetSignalDetected, [Event.monitor MonitorCall.GetSignalDetected]) ∧
    p.IsSubDevice mon = (mon.IsSubDevice, [Event.monitor MonitorCall.IsSubDevice]) ∧
    p.GetActiveConnection mon =
      (mon.GetActiveConnection, [Event.monitor MonitorCall.GetActiveConnection]) ∧
    p.SelectNextConnection = ((), [Event.monitor MonitorCall.SelectNextConnection]) ∧
    monitorCalls MonitorCall.SelectNextConnection p.SelectNextConnection.2 = 1 := by
  cases hm : p.m_captureDelegate with
  | none => exact absurd hm h
  | some ptr =>
    simp [DeviceProber.GetSignalDetected, DeviceProber.IsSubDevice,
      DeviceProber.GetActiveConnection, DeviceProber.SelectNextConnection, hm, monitorCalls]

/-- C7 at `monitoringProber` and a delegate without a signal that is a
sub-device on connection 1. -/
theorem C7_unconditional_forwarding_witness :
    monitoringProber.GetSignalDetected unlockedDelegate =
      (false, [Event.monitor MonitorCall.GetSignalDetected]) ∧
    monitoringProber.IsSubDevice unlockedDelegate =
      (true, [Event.monitor MonitorCall.IsSubDevice]) ∧
    monitoringProber.GetActiveConnection unlockedDelegate =
      (1, [Event.monitor MonitorCall.GetActiveConnection]) ∧
    monitorCalls MonitorCall.SelectNextConnection monitoringProber.SelectNextConnection.2 = 1 :=
  have c := C7_unconditional_forwarding monitoringProber (by decide) unlockedDelegate
  ⟨c.1, c.2.1, c.2.2.1, c.2.2.2.2⟩

/-! ## Lifetime of the delegate -/

/-- No public call constructs or starts a delegate. -/
theorem call_never_constructs (p : DeviceProber) (op : Op) (mon : CaptureDelegate) :
    monitorCalls MonitorCall.construct (p.call op mon).events = 0 ∧
    monitorCalls MonitorCall.Start (p.call op mon).events = 0 := by
  cases hm : p.m_captureDelegate <;> cases op <;>
    simp [DeviceProber.call, DeviceProber.GetSignalDetected, DeviceProber.IsSubDevice,
      DeviceProber.GetDetectedMode, DeviceProber.GetPixelFormat, DeviceProber.GetLastFrame,
      DeviceProber.GetActiveConnection, DeviceProber.SelectNextConnection, hm, monitorCalls]
  all_goals (split <;> simp [GetDeviceName_events])

/-- No sequence of public calls constructs or starts a delegate. -/
theorem run_never_constructs (p : DeviceProber) (calls : List (Op × CaptureDelegate)) :
    monitorCalls MonitorCall.construct (p.run calls).events = 0 ∧
    monitorCalls MonitorCall.Start (p.run calls).events = 0 := by
  induction calls with
  | nil => exact ⟨rfl, rfl⟩
  | cons c rest ih =>
    have hc := call_never_constructs p c.1 c.2
    simp only [monitorCalls] at hc ih ⊢
    simp [DeviceProber.run, call_state, List.count_append, hc.1, hc.2, ih.1, ih.2]

/-- C8. On a device where both capability queries succeed, construction succeeds
with both flags true and a non-null monitor pointer, and the calls it makes on
the delegate are exactly one construction followed by exactly one `Start()`.
After every sequence of public operations that follows, no delegate has been
constructed, `Start()` has not been called again, and the monitor pointer and
both capability flags have the values the constructor gave them. -/
theorem C8_monitor_constructed_and_started_once (d : IDeckLink)
    (hi : d.queryInput = S_OK) (ha : d.queryAttributes = S_OK) (hf : d.getFlag = S_OK)
    (hv : d.formatDetectionSupported = true) (calls : List (Op × CaptureDelegate)) :
    ∃ (p : DeviceProber) (log : List Event),
      DeviceProber.DeviceProber d = (Except.ok p, log) ∧
      p.m_canInput = true ∧ p.m_canAutodetect = true ∧
      p.m_captureDelegate = some { deckLink := d } ∧
      monitorTrace log = [MonitorCall.construct, MonitorCall.Start] ∧
      monitorCalls MonitorCall.construct log = 1 ∧
      monitorCalls MonitorCall.Start log = 1 ∧
      monitorCalls MonitorCall.construct (p.run calls).events = 0 ∧
      monitorCalls MonitorCall.Start (p.run calls).events = 0 ∧
      (p.run calls).state.m_captureDelegate = p.m_captureDelegate ∧
      (p.run calls).state.m_canInput = p.m_canInput ∧
      (p.run calls).state.m_canAutodetect = p.m_canAutodetect ∧
      (p.run calls).state = p := by
  refine ⟨DeviceProber.mk d true true (some (CaptureDelegatePtr.mk d)),
    [Event.addRef RefObject.deckLink, Event.addRef RefObject.deckLinkInput,
      Event.release RefObject.deckLinkInput, Event.addRef RefObject.deckLinkAttributes,
      Event.release RefObject.deckLinkAttributes, Event.monitor MonitorCall.construct,
      Event.monitor MonitorCall.Start], ?_, ?_⟩
  · rw [ctor_of_ok d ha hf, queryCanInput_of_ok d hi]
    simp [hv]
  · have hn := run_never_constructs
      { m_deckLink := d, m_canInput := true, m_canAutodetect := true,
        m_captureDelegate := some { deckLink := d } } calls
    simp [monitorTrace, monitorCalls, run_state] at hn ⊢
    exact hn

/-- C8 at `captureCard`, followed by `session`. -/
theorem C8_monitor_constructed_and_started_once_witness :
    (captureCard.queryInput = S_OK ∧ captureCard.queryAttributes = S_OK ∧
      captureCard.getFlag = S_OK ∧ captureCard.formatDetectionSupported = true) ∧
    ∃ (p : DeviceProber) (log : List Event),
      DeviceProber.DeviceProber captureCard = (Except.ok p, log) ∧
      monitorTrace log = [MonitorCall.construct, MonitorCall.Start] ∧
      monitorCalls MonitorCall.construct (p.run session).events = 0 ∧
      monitorCalls MonitorCall.Start (p.run session).events = 0 ∧
      (p.run session).state = p :=
  have h1 : captureCard.queryInput = S_OK := by decide
  have h2 : captureCard.queryAttributes = S_OK := by decide
  have h3 : captureCard.getFlag = S_OK := by decide
  have h4 : captureCard.formatDetectionSupported = true := by decide
  match C8_monitor_constructed_and_started_once captureCard h1 h2 h3 h4 session with
  | ⟨p, log, c⟩ =>
    ⟨⟨h1, h2, h3, h4⟩, p, log, c.1, c.2.2.2.2.1, c.2.2.2.2.2.2.2.1, c.2.2.2.2.2.2.2.2.1,
      c.2.2.2.2.2.2.2.2.2.2.2.2⟩

/-! ## Reference discipline -/

/-- C9. Over the mock driver, for every device, every reference-counted object
`o` and every number `n` of references held on `o` beforehand:
`queryCanInput` acquires the input facet once iff the query returned `S_OK`,
touches no other object, releases exactly what it acquired and leaves `n`
references on `o`; `queryCanAutodetect` does the same with the attributes
facet, on its return as on both of its raises; the constructor acquires the
device handle once; a construction that raises has released every object as
often as it acquired it and leaves `n` references on `o`; a construction that
succeeds never releases the device handle and leaves `n + 1` references on it,
and `n` on each facet. No release ever finds the count at zero. -/
theorem C9_reference_discipline (d : IDeckLink) (o : RefObject) (n : Nat) :
    (acquired RefObject.deckLinkInput (DeviceProber.queryCanInput d).2 =
        (if d.queryInput = S_OK then 1 else 0) ∧
      (o ≠ RefObject.deckLinkInput → acquired o (DeviceProber.queryCanInput d).2 = 0) ∧
      released o (DeviceProber.queryCanInput d).2 =
        acquired o (DeviceProber.queryCanInput d).2 ∧
      heldAfter o n (DeviceProber.queryCanInput d).2 = some n) ∧
    (acquired RefObject.deckLinkAttributes (DeviceProber.queryCanAutodetect d).2 =
        (if d.queryAttributes = S_OK then 1 else 0) ∧
      (o ≠ RefObject.deckLinkAttributes →
        acquired o (DeviceProber.queryCanAutodetect d).2 = 0) ∧
      released o (DeviceProber.queryCanAutodetect d).2 =
        acquired o (DeviceProber.queryCanAutodetect d).2 ∧
      heldAfter o n (DeviceProber.queryCanAutodetect d).2 = some n) ∧
    acquired RefObject.deckLink (DeviceProber.DeviceProber d).2 = 1 ∧
    (raises (DeviceProber.DeviceProber d).1 = true →
      released RefObject.deckLink (DeviceProber.DeviceProber d).2 = 1 ∧
      released o (DeviceProber.DeviceProber d).2 =
        acquired o (DeviceProber.DeviceProber d).2 ∧
      heldAfter o n (DeviceProber.DeviceProber d).2 = some n) ∧
    (raises (DeviceProber.DeviceProber d).1 = false →
      released RefObject.deckLink (DeviceProber.DeviceProber d).2 = 0 ∧
      heldAfter RefObject.deckLink n (DeviceProber.DeviceProber d).2 = some (n + 1) ∧
      (o ≠ RefObject.deckLink →
        released o (DeviceProber.DeviceProber d).2 =
          acquired o (DeviceProber.DeviceProber d).2 ∧
        heldAfter o n (DeviceProber.DeviceProber d).2 = some n)) := by
  by_cases hi : d.queryInput = S_OK <;> by_cases ha : d.queryAttributes = S_OK <;>
    by_cases hf : d.getFlag = S_OK
  all_goals
    first
    | rw [ctor_of_ok d ha hf, queryCanAutodetect_of_ok d ha hf]
    | rw [ctor_of_no_flag d ha hf, queryCanAutodetect_of_no_flag d ha hf]
    | rw [ctor_of_no_attributes d ha, queryCanAutodetect_of_no_attributes d ha]
  all_goals
    first
    | rw [queryCanInput_of_ok d hi]
    | rw [queryCanInput_of_not_ok d hi]
  all_goals
    cases o <;> cases hv : d.formatDetectionSupported <;>
      simp [acquired, released, heldAfter, raises, hi, ha]

/-- C9 at `noFlagCard` (the flag read fails after the attributes facet was
obtained; the device handle was held twice beforehand) and at `captureCard` (a
successful construction). -/
theorem C9_reference_discipline_witness :
    raises (DeviceProber.DeviceProber noFlagCard).1 = true ∧
    acquired RefObject.deckLinkAttributes (DeviceProber.queryCanAutodetect noFlagCard).2 = 1 ∧
    released RefObject.deckLinkAttributes (DeviceProber.queryCanAutodetect noFlagCard).2 = 1 ∧
    released RefObject.deckLink (DeviceProber.DeviceProber noFlagCard).2 = 1 ∧
    heldAfter RefObject.deckLink 2 (DeviceProber.DeviceProber noFlagCard).2 = some 2 ∧
    raises (DeviceProber.DeviceProber captureCard).1 = false ∧
    heldAfter RefObject.deckLink 2 (DeviceProber.DeviceProber captureCard).2 = some 3 ∧
    heldAfter RefObject.deckLinkInput 0 (DeviceProber.DeviceProber captureCard).2 = some 0 :=
  have r1 : raises (DeviceProber.DeviceProber noFlagCard).1 = true := rfl
  have r2 : raises (DeviceProber.DeviceProber captureCard).1 = false := rfl
  have a := C9_reference_discipline noFlagCard RefObject.deckLinkAttributes 0
  have f := C9_reference_discipline noFlagCard RefObject.deckLink 2
  have c := C9_reference_discipline captureCard RefObject.deckLinkInput 0
  have k := C9_reference_discipline captureCard RefObject.deckLink 2
  ⟨r1, a.2.1.1, a.2.1.2.2.1.trans a.2.1.1, (f.2.2.2.1 r1).1, (f.2.2.2.1 r1).2.2, r2,
    (k.2.2.2.2 r2).2.1, ((c.2.2.2.2 r2).2.2 (by decide)).2⟩

/-! ## Device identity -/

/-- C10. For every prober, whatever its capability flags and monitor pointer,
`GetDeviceName()` returns exactly the name the driver reports when
`GetDisplayName` returns `S_OK`, and raises "Failed to get the Name for the
DeckLink Device" iff `GetDisplayName` does not return `S_OK`. In both outcomes
the prober (both flags, the monitor pointer) is unchanged and no call on a
delegate is made. -/
theorem C10_device_name (p : DeviceProber) (mon : CaptureDelegate) :
    (p.m_deckLink.getDisplayName = S_OK →
      p.GetDeviceName.1 = Except.ok p.m_deckLink.displayName) ∧
    (p.m_deckLink.getDisplayName ≠ S_OK →
      p.GetDeviceName.1 = Except.error "Failed to get the Name for the DeckLink Device") ∧
    (raises p.GetDeviceName.1 = true ↔ p.m_deckLink.getDisplayName ≠ S_OK) ∧
    p.GetDeviceName.2 = [] ∧
    (p.call Op.GetDeviceName mon).state = p ∧
    (p.call Op.GetDeviceName mon).state.m_canInput = p.m_canInput ∧
    (p.call Op.GetDeviceName mon).state.m_canAutodetect = p.m_canAutodetect ∧
    (p.call Op.GetDeviceName mon).state.m_captureDelegate = p.m_captureDelegate ∧
    (p.call Op.GetDeviceName mon).events = [] ∧
    monitorTrace (p.call Op.GetDeviceName mon).events = [] := by
  have hs := call_state p Op.GetDeviceName mon
  have he : (p.call Op.GetDeviceName mon).events = [] := by
    simp only [DeviceProber.call]
    split <;> simp [GetDeviceName_events]
  refine ⟨?_, ?_, ?_, GetDeviceName_events p, hs, by rw [hs], by rw [hs], by rw [hs], he,
    by rw [he]; rfl⟩
  · intro h
    simp [DeviceProber.GetDeviceName, IDeckLink.GetDisplayName, h]
  · intro h
    simp [DeviceProber.GetDeviceName, IDeckLink.GetDisplayName, h]
  · by_cases h : p.m_deckLink.getDisplayName = S_OK <;>
      simp [DeviceProber.GetDeviceName, IDeckLink.GetDisplayName, raises, h]

/-- C10 at `monitoringProber` (the driver tells the name), at `plainProber` (no
capability, the name is told all the same) and at `namelessProber` (the driver
fails). -/
theorem C10_device_name_witness :
    monitoringProber.GetDeviceName.1 = Except.ok "DeckLink Mini Recorder" ∧
    plainProber.GetDeviceName.1 = Except.ok "DeckLink Mini Monitor" ∧
    namelessProber.m_deckLink.getDisplayName ≠ S_OK ∧
    namelessProber.GetDeviceName.1 =
      Except.error "Failed to get the Name for the DeckLink Device" ∧
    raises namelessProber.GetDeviceName.1 = true ∧
    (namelessProber.call Op.GetDeviceName lockedDelegate).state = namelessProber :=
  have hn : namelessProber.m_deckLink.getDisplayName ≠ S_OK := by decide
  have a := C10_device_name monitoringProber lockedDelegate
  have b := C10_device_name plainProber lockedDelegate
  have c := C10_device_name namelessProber lockedDelegate
  ⟨a.1 (by decide), b.1 (by decide), hn, c.2.1 hn, c.2.2.1.mpr hn, c.2.2.2.2.1⟩

end DecklinkDebugger
